import Mathlib

/-!
Verification of `minitorch/datasets.py`: a point sampler, six synthetic
dataset generators, and a name-to-generator lookup table.

Embedding conventions:
* Python floats are embedded as `ℚ` (exact arithmetic; every claim here is
  about which formula is applied, not about rounding).
* The process-wide random source (`random.random()`) is embedded as an
  infinite stream `r : ℕ → ℚ`, the k-th call returning `r k`; a sampler
  invocation reads the stream in order.
* `math.cos` / `math.sin` are opaque library functions; they are embedded as
  abstract parameters `mcos msin : ℚ → ℚ`.
* Python division raises `ZeroDivisionError` on a zero divisor, so the one
  function whose body contains a division with a possibly-zero divisor
  (`spiral`) is embedded in the `Except String` error monad; divisions by
  nonzero constants (`/ 20.0`) are embedded as plain division.
* Python `int` is embedded as `ℤ` (`//` is floor division, `Int.fdiv`;
  `range` and list repetition clamp negative counts to empty).
-/

namespace MiniTorchDatasets

/-- Python `range(a, b)` over integers: the list `[a, a+1, ..., b-1]`,
empty when `b ≤ a`. -/
def pyRange (a b : ℤ) : List ℤ :=
  (List.range (b - a).toNat).map (fun (k : ℕ) => a + (k : ℤ))

/-- Python float division `a / b`: raises `ZeroDivisionError` when `b = 0`. -/
def pydiv (a b : ℚ) : Except String ℚ :=
  if b = 0 then Except.error "ZeroDivisionError" else Except.ok (a / b)

/-- `make_pts(N)` from the source: `N` points, the i-th point made of the
2i-th and (2i+1)-th draws from the random stream. `range(N)` is empty for
`N ≤ 0`. -/
def make_pts (r : ℕ → ℚ) (N : ℤ) : List (ℚ × ℚ) :=
  (List.range N.toNat).map (fun i => (r (2 * i), r (2 * i + 1)))

/-- The `Graph` dataclass: count `N`, points `X`, labels `y`. -/
structure Graph where
  N : ℤ
  X : List (ℚ × ℚ)
  y : List ℤ
deriving DecidableEq

/-- `simple(N)`: label `1 if x_1 < 0.5 else 0`. -/
def simple (r : ℕ → ℚ) (N : ℤ) : Graph :=
  let X := make_pts r N
  let y := X.map (fun p => if p.1 < 1/2 then (1 : ℤ) else 0)
  ⟨N, X, y⟩

/-- `diag(N)`: label `1 if x_1 + x_2 < 0.5 else 0`. -/
def diag (r : ℕ → ℚ) (N : ℤ) : Graph :=
  let X := make_pts r N
  let y := X.map (fun p => if p.1 + p.2 < 1/2 then (1 : ℤ) else 0)
  ⟨N, X, y⟩

/-- `split(N)`: label `1 if x_1 < 0.2 or x_1 > 0.8 else 0`. -/
def split (r : ℕ → ℚ) (N : ℤ) : Graph :=
  let X := make_pts r N
  let y := X.map (fun p => if p.1 < 1/5 ∨ p.1 > 4/5 then (1 : ℤ) else 0)
  ⟨N, X, y⟩

/-- `xor(N)`: label `1 if x_1 < 0.5 and x_2 > 0.5 or x_1 > 0.5 and x_2 < 0.5
else 0` (Python `and` binds tighter than `or`). -/
def xor (r : ℕ → ℚ) (N : ℤ) : Graph :=
  let X := make_pts r N
  let y := X.map (fun p =>
    if (p.1 < 1/2 ∧ p.2 > 1/2) ∨ (p.1 > 1/2 ∧ p.2 < 1/2) then (1 : ℤ) else 0)
  ⟨N, X, y⟩

/-- `circle(N)`: shift each coordinate by `0.5`, label
`1 if x1*x1 + x2*x2 > 0.1 else 0`. -/
def circle (r : ℕ → ℚ) (N : ℤ) : Graph :=
  let X := make_pts r N
  let y := X.map (fun p =>
    let x1 := p.1 - 1/2
    let x2 := p.2 - 1/2
    if x1 * x1 + x2 * x2 > 1/10 then (1 : ℤ) else 0)
  ⟨N, X, y⟩

/-- The helper `x(t) = t * math.cos(t) / 20.0` defined inside `spiral`. -/
def spiral.x (mcos : ℚ → ℚ) (t : ℚ) : ℚ := t * mcos t / 20

/-- The helper `y(t) = t * math.sin(t) / 20.0` defined inside `spiral`. -/
def spiral.y (msin : ℚ → ℚ) (t : ℚ) : ℚ := t * msin t / 20

/-- The body of the first comprehension in `spiral`, at index `i` with
`M = N // 2`: computes `x(10.0 * (float(i) / M)) + 0.5` and
`y(10.0 * (float(i) / M)) + 0.5`; the division raises iff `M = 0`. -/
def spiralElem1 (mcos msin : ℚ → ℚ) (M : ℤ) (i : ℤ) : Except String (ℚ × ℚ) := do
  let q ← pydiv (i : ℚ) ((M : ℤ) : ℚ)
  pure (spiral.x mcos (10 * q) + 1/2, spiral.y msin (10 * q) + 1/2)

/-- The body of the second comprehension in `spiral`:
`(y(-10.0 * (float(i) / M)) + 0.5, x(-10.0 * (float(i) / M)) + 0.5)`. -/
def spiralElem2 (mcos msin : ℚ → ℚ) (M : ℤ) (i : ℤ) : Except String (ℚ × ℚ) := do
  let q ← pydiv (i : ℚ) ((M : ℤ) : ℚ)
  pure (spiral.y msin (-10 * q) + 1/2, spiral.x mcos (-10 * q) + 1/2)

/-- `spiral(N)` from the source. Each comprehension ranges over
`range(5 + 0, 5 + N // 2)` and only evaluates its body (and hence the
division by `N // 2`) when that range is nonempty. Labels are
`[0] * (N // 2) + [1] * (N // 2)`. The random stream `r` is in scope (the
ambient global source) but the body never reads it. -/
def spiral (mcos msin : ℚ → ℚ) (r : ℕ → ℚ) (N : ℤ) : Except String Graph := do
  let X1 ← (pyRange (5 + 0) (5 + Int.fdiv N 2)).mapM (spiralElem1 mcos msin (Int.fdiv N 2))
  let X2 ← (pyRange (5 + 0) (5 + Int.fdiv N 2)).mapM (spiralElem2 mcos msin (Int.fdiv N 2))
  pure ⟨N, X1 ++ X2, List.replicate (Int.fdiv N 2).toNat 0 ++ List.replicate (Int.fdiv N 2).toNat 1⟩

/-- The `datasets` lookup table. The five sampler-based generators always
return normally, so their entries wrap the result in `Except.ok` to share
the common Python signature `(N) -> Graph`-or-raise. -/
def datasets (mcos msin : ℚ → ℚ) :
    List (String × ((ℕ → ℚ) → ℤ → Except String Graph)) :=
  [("Simple", fun r N => Except.ok (simple r N)),
   ("Diag", fun r N => Except.ok (diag r N)),
   ("Split", fun r N => Except.ok (split r N)),
   ("Xor", fun r N => Except.ok (xor r N)),
   ("Circle", fun r N => Except.ok (circle r N)),
   ("Spiral", spiral mcos msin)]

/-! Spec-side definitions, written from the spec's words, to be compared
with the source embedding. -/

/-- Spec §4.2: `spiralX(t) = t*cos(t)/20`. -/
def spiralX (mcos : ℚ → ℚ) (t : ℚ) : ℚ := t * mcos t / 20

/-- Spec §4.2: `spiralY(t) = t*sin(t)/20`. -/
def spiralY (msin : ℚ → ℚ) (t : ℚ) : ℚ := t * msin t / 20

/-- Spec §4.2, first arm: for i in 5..5+M, `t = 10*(i/M)`,
point `(spiralX(t)+0.5, spiralY(t)+0.5)`. -/
def specFirstArm (mcos msin : ℚ → ℚ) (M : ℤ) : List (ℚ × ℚ) :=
  (pyRange 5 (5 + M)).map (fun (i : ℤ) =>
    let t : ℚ := 10 * ((i : ℚ) / (M : ℚ))
    (spiralX mcos t + 1/2, spiralY msin t + 1/2))

/-- Spec §4.2, second arm: for i in 5..5+M, `t = -10*(i/M)`,
point `(spiralY(t)+0.5, spiralX(t)+0.5)` — coordinates swapped. -/
def specSecondArm (mcos msin : ℚ → ℚ) (M : ℤ) : List (ℚ × ℚ) :=
  (pyRange 5 (5 + M)).map (fun (i : ℤ) =>
    let t : ℚ := -10 * ((i : ℚ) / (M : ℚ))
    (spiralY msin t + 1/2, spiralX mcos t + 1/2))

/-- Spec §4.2: labels are M zeros followed by M ones. -/
def specSpiralLabels (M : ℤ) : List ℤ :=
  List.replicate M.toNat 0 ++ List.replicate M.toNat 1

/-- Spec §4.2 table: `simple` labels a point `1 if x1 < 0.5 else 0`. -/
def specSimpleLabel (p : ℚ × ℚ) : ℤ := if p.1 < 1/2 then 1 else 0

/-- Spec §4.2 table: `xor` labels a point
`1 if (x1<0.5 and x2>0.5) or (x1>0.5 and x2<0.5) else 0`. -/
def specXorLabel (p : ℚ × ℚ) : ℤ :=
  if (p.1 < 1/2 ∧ p.2 > 1/2) ∨ (p.1 > 1/2 ∧ p.2 < 1/2) then 1 else 0

/-- Spec §4.2 table: `circle` labels with `d1=x1-0.5`, `d2=x2-0.5`,
`1 if d1*d1+d2*d2 > 0.1 else 0`. -/
def specCircleLabel (p : ℚ × ℚ) : ℤ :=
  if (p.1 - 1/2) * (p.1 - 1/2) + (p.2 - 1/2) * (p.2 - 1/2) > 1/10 then 1 else 0

/-! Helper lemmas. -/

theorem pyRange_eq_nil (a b : ℤ) (h : b ≤ a) : pyRange a b = [] := by
  simp [pyRange, Int.toNat_of_nonpos (by omega : b - a ≤ 0)]

theorem pyRange_length (a b : ℤ) : (pyRange a b).length = (b - a).toNat := by
  rw [pyRange, List.length_map, List.length_range]

theorem except_ok_bind {α β : Type} (a : α) (f : α → Except String β) :
    (Except.ok a : Except String α) >>= f = f a := rfl

/-- `mapM` over `Except` succeeds elementwise: if every element of the list
maps to `Except.ok`, the whole `mapM` is `Except.ok` of the pointwise map. -/
theorem mapM_except_ok {α β : Type} (f : α → Except String β) (g : α → β)
    (l : List α) (h : ∀ a ∈ l, f a = Except.ok (g a)) :
    l.mapM f = Except.ok (l.map g) := by
  induction l with
  | nil => rfl
  | cons a l ih =>
    rw [List.mapM_cons, List.map_cons, h a (List.mem_cons_self a l),
      ih (fun b hb => h b (List.mem_cons_of_mem a hb))]
    rfl

theorem spiralElem1_ok (mcos msin : ℚ → ℚ) (M : ℤ) (hM : M ≠ 0) (i : ℤ) :
    spiralElem1 mcos msin M i =
      Except.ok (spiralX mcos (10 * ((i : ℚ) / (M : ℚ))) + 1/2,
        spiralY msin (10 * ((i : ℚ) / (M : ℚ))) + 1/2) := by
  have hQ : ((M : ℤ) : ℚ) ≠ 0 := Int.cast_ne_zero.mpr hM
  simp [spiralElem1, pydiv, hQ, spiralX, spiralY, spiral.x, spiral.y]

theorem spiralElem2_ok (mcos msin : ℚ → ℚ) (M : ℤ) (hM : M ≠ 0) (i : ℤ) :
    spiralElem2 mcos msin M i =
      Except.ok (spiralY msin (-10 * ((i : ℚ) / (M : ℚ))) + 1/2,
        spiralX mcos (-10 * ((i : ℚ) / (M : ℚ))) + 1/2) := by
  have hQ : ((M : ℤ) : ℚ) ≠ 0 := Int.cast_ne_zero.mpr hM
  simp [spiralElem2, pydiv, hQ, spiralX, spiralY, spiral.x, spiral.y]

/-- Master lemma: for every integer `N`, `spiral` returns normally, and its
points and labels are the spec's two arms and label blocks for `M = N // 2`.
When `M = 0` (so `N ∈ {0, 1}` or `N` negative... `M ≤ 0`), both
comprehension ranges are empty and the division is never evaluated. -/
theorem spiral_ok (mcos msin : ℚ → ℚ) (r : ℕ → ℚ) (N : ℤ) :
    spiral mcos msin r N =
      Except.ok ⟨N, specFirstArm mcos msin (Int.fdiv N 2) ++
          specSecondArm mcos msin (Int.fdiv N 2),
        specSpiralLabels (Int.fdiv N 2)⟩ := by
  have h50 : (5 + 0 : ℤ) = 5 := rfl
  by_cases h0 : Int.fdiv N 2 = 0
  · rw [spiral, h0, h50, pyRange_eq_nil 5 5 le_rfl]
    have h1 : specFirstArm mcos msin 0 = [] := by
      rw [specFirstArm, pyRange_eq_nil 5 (5 + 0) (by norm_num), List.map_nil]
    have h2 : specSecondArm mcos msin 0 = [] := by
      rw [specSecondArm, pyRange_eq_nil 5 (5 + 0) (by norm_num), List.map_nil]
    rw [h1, h2]
    rfl
  · rw [spiral,
      mapM_except_ok (spiralElem1 mcos msin (Int.fdiv N 2))
        (fun i => (spiralX mcos (10 * ((i : ℚ) / (Int.fdiv N 2 : ℚ))) + 1/2,
          spiralY msin (10 * ((i : ℚ) / (Int.fdiv N 2 : ℚ))) + 1/2))
        (pyRange (5 + 0) (5 + Int.fdiv N 2))
        (fun i _ => spiralElem1_ok mcos msin (Int.fdiv N 2) h0 i),
      mapM_except_ok (spiralElem2 mcos msin (Int.fdiv N 2))
        (fun i => (spiralY msin (-10 * ((i : ℚ) / (Int.fdiv N 2 : ℚ))) + 1/2,
          spiralX mcos (-10 * ((i : ℚ) / (Int.fdiv N 2 : ℚ))) + 1/2))
        (pyRange (5 + 0) (5 + Int.fdiv N 2))
        (fun i _ => spiralElem2_ok mcos msin (Int.fdiv N 2) h0 i)]
    rw [h50]
    simp only [except_ok_bind]
    simp only [specFirstArm, specSecondArm, specSpiralLabels]
    rfl

theorem specFirstArm_eq_nil (mcos msin : ℚ → ℚ) (M : ℤ) (h : M ≤ 0) :
    specFirstArm mcos msin M = [] := by
  rw [specFirstArm, pyRange_eq_nil 5 (5 + M) (by omega), List.map_nil]

theorem specSecondArm_eq_nil (mcos msin : ℚ → ℚ) (M : ℤ) (h : M ≤ 0) :
    specSecondArm mcos msin M = [] := by
  rw [specSecondArm, pyRange_eq_nil 5 (5 + M) (by omega), List.map_nil]

theorem specSpiralLabels_eq_nil (M : ℤ) (h : M ≤ 0) : specSpiralLabels M = [] := by
  simp [specSpiralLabels, Int.toNat_of_nonpos h]

/-! The claims. -/

/-- C2 (amended): for `N = 0` or `N = 1` we have `N // 2 = 0`, so both
comprehension ranges `range(5, 5 + 0)` are empty and the division
`float(i) / (N // 2)` is never evaluated; `spiral` does not raise, it
returns a `Graph` with count `N` and empty point and label sequences. -/
theorem claim2_spiral_small_returns (mcos msin : ℚ → ℚ) (r : ℕ → ℚ) (N : ℤ)
    (h : N = 0 ∨ N = 1) :
    spiral mcos msin r N = Except.ok ⟨N, [], []⟩ := by
  have h0 : Int.fdiv N 2 = 0 := by rcases h with h | h <;> subst h <;> decide
  rw [spiral_ok, h0, specFirstArm_eq_nil mcos msin 0 le_rfl,
    specSecondArm_eq_nil mcos msin 0 le_rfl, specSpiralLabels_eq_nil 0 le_rfl]
  rfl

/-- C2 counterexample: at the concrete inputs `N = 0` and `N = 1`,
`spiral` returns a `Graph` normally (no `ZeroDivisionError` is raised),
contradicting the claim that it must raise a domain error. -/
theorem claim2_counterexample :
    spiral (fun t => t) (fun t => t) (fun _ => 0) 0 = Except.ok ⟨0, [], []⟩ ∧
    spiral (fun t => t) (fun t => t) (fun _ => 0) 1 = Except.ok ⟨1, [], []⟩ :=
  ⟨rfl, rfl⟩

/-- C2 witness: the amended claim applied at `N = 1`. -/
theorem claim2_witness :
    ((1 : ℤ) = 0 ∨ (1 : ℤ) = 1) ∧
    spiral (fun t => t + 1) (fun t => t + 2) (fun _ => 3) 1 = Except.ok ⟨1, [], []⟩ :=
  ⟨Or.inr rfl, claim2_spiral_small_returns _ _ _ 1 (Or.inr rfl)⟩

/-- C3: for `N ≥ 2`, `spiral(N)` returns a `Graph` whose point sequence is
the spec's first arm (points `(spiralX(t)+0.5, spiralY(t)+0.5)` for
`t = 10*(i/M)`, `i` in `[5, 5+M)`, `M = N // 2`) followed by the spec's
second arm (coordinates swapped, `t = -10*(i/M)`), and whose label
sequence is exactly `M` zeros followed by `M` ones. -/
theorem claim3_spiral_points (mcos msin : ℚ → ℚ) (r : ℕ → ℚ) (N : ℤ)
    (hN : 2 ≤ N) :
    spiral mcos msin r N =
      Except.ok ⟨N, specFirstArm mcos msin (Int.fdiv N 2) ++
          specSecondArm mcos msin (Int.fdiv N 2),
        specSpiralLabels (Int.fdiv N 2)⟩ :=
  spiral_ok mcos msin r N

/-- C3 witness: the claim applied at `N = 4` with concrete trigonometric
stand-ins and a concrete random stream. -/
theorem claim3_witness :
    (2 : ℤ) ≤ 4 ∧
    spiral (fun t => t) (fun t => t) (fun _ => 0) 4 =
      Except.ok ⟨4, specFirstArm (fun t => t) (fun t => t) (Int.fdiv 4 2) ++
          specSecondArm (fun t => t) (fun t => t) (Int.fdiv 4 2),
        specSpiralLabels (Int.fdiv 4 2)⟩ :=
  ⟨by norm_num, claim3_spiral_points _ _ _ 4 (by norm_num)⟩

/-- C9: `spiral` never consults the random source: its result is the same
for any two random streams, so two calls return identical `Graph`s. -/
theorem claim9_spiral_deterministic (mcos msin : ℚ → ℚ) (r₁ r₂ : ℕ → ℚ)
    (N : ℤ) : spiral mcos msin r₁ N = spiral mcos msin r₂ N := rfl

/-- C9 witness: two concrete, different random streams give the same
result at `N = 6`. -/
theorem claim9_witness :
    spiral (fun t => t) (fun t => t) (fun _ => 0) 6 =
      spiral (fun t => t) (fun t => t) (fun _ => 7) 6 :=
  claim9_spiral_deterministic (fun t => t) (fun t => t) (fun _ => 0) (fun _ => 7) 6

/-- C10: for every negative `N`, every generator returns normally with
count field `N` and empty point and label sequences: `range(N)` and
`range(5, 5 + N // 2)` are empty and `[0] * (N // 2)` is empty for
negative repetition counts. -/
theorem claim10_negative_inputs (mcos msin : ℚ → ℚ) (r : ℕ → ℚ) (N : ℤ)
    (hN : N < 0) :
    simple r N = ⟨N, [], []⟩ ∧ diag r N = ⟨N, [], []⟩ ∧
    split r N = ⟨N, [], []⟩ ∧ xor r N = ⟨N, [], []⟩ ∧
    circle r N = ⟨N, [], []⟩ ∧
    spiral mcos msin r N = Except.ok ⟨N, [], []⟩ := by
  have hmp : make_pts r N = [] := by
    simp [make_pts, Int.toNat_of_nonpos hN.le]
  have hM0 : Int.fdiv N 2 ≤ 0 := by
    rw [Int.fdiv_eq_ediv N (by norm_num)]
    omega
  refine ⟨?_, ?_, ?_, ?_, ?_, ?_⟩
  · simp [simple, hmp]
  · simp [diag, hmp]
  · simp [split, hmp]
  · simp [xor, hmp]
  · simp [circle, hmp]
  · rw [spiral_ok, specFirstArm_eq_nil mcos msin _ hM0,
      specSecondArm_eq_nil mcos msin _ hM0, specSpiralLabels_eq_nil _ hM0]
    rfl

/-- C10 witness: all six generators at the concrete input `N = -2`. -/
theorem claim10_witness :
    (-2 : ℤ) < 0 ∧
    (simple (fun _ => 0) (-2) = ⟨-2, [], []⟩ ∧
     diag (fun _ => 0) (-2) = ⟨-2, [], []⟩ ∧
     split (fun _ => 0) (-2) = ⟨-2, [], []⟩ ∧
     xor (fun _ => 0) (-2) = ⟨-2, [], []⟩ ∧
     circle (fun _ => 0) (-2) = ⟨-2, [], []⟩ ∧
     spiral (fun t => t) (fun t => t) (fun _ => 0) (-2) = Except.ok ⟨-2, [], []⟩) :=
  ⟨by norm_num, claim10_negative_inputs (fun t => t) (fun t => t) (fun _ => 0) (-2) (by norm_num)⟩

/-- C1 (amended): for the five sampler-based generators and every `N ≥ 0`,
the point and label sequences both have length `N` and the stored count is
`N`; `spiral` returns a `Graph` with stored count `N` but point and label
sequences of length `2 * (N // 2)`, which equals `N` exactly when `N` is
even. -/
theorem claim1_lengths (mcos msin : ℚ → ℚ) (r : ℕ → ℚ) (N : ℤ) (hN : 0 ≤ N) :
    (((simple r N).X.length : ℤ) = N ∧ ((simple r N).y.length : ℤ) = N ∧
      (simple r N).N = N) ∧
    (((diag r N).X.length : ℤ) = N ∧ ((diag r N).y.length : ℤ) = N ∧
      (diag r N).N = N) ∧
    (((split r N).X.length : ℤ) = N ∧ ((split r N).y.length : ℤ) = N ∧
      (split r N).N = N) ∧
    (((xor r N).X.length : ℤ) = N ∧ ((xor r N).y.length : ℤ) = N ∧
      (xor r N).N = N) ∧
    (((circle r N).X.length : ℤ) = N ∧ ((circle r N).y.length : ℤ) = N ∧
      (circle r N).N = N) ∧
    ((spiral mcos msin r N).map (fun g => (g.N, (g.X.length : ℤ), (g.y.length : ℤ))) =
      Except.ok (N, 2 * Int.fdiv N 2, 2 * Int.fdiv N 2)) ∧
    (2 ∣ N → (spiral mcos msin r N).map (fun g => (g.N, (g.X.length : ℤ), (g.y.length : ℤ))) =
      Except.ok (N, N, N)) := by
  have hlen : ((make_pts r N).length : ℤ) = N := by
    rw [make_pts, List.length_map, List.length_range, Int.toNat_of_nonneg hN]
  have hmap : ∀ f : ℚ × ℚ → ℤ, (((make_pts r N).map f).length : ℤ) = N := fun f => by
    rw [List.length_map]
    exact hlen
  have hM : Int.fdiv N 2 = N / 2 := Int.fdiv_eq_ediv N (by norm_num)
  have harm1 : (specFirstArm mcos msin (Int.fdiv N 2)).length = (Int.fdiv N 2).toNat := by
    rw [specFirstArm, List.length_map, pyRange_length]
    omega
  have harm2 : (specSecondArm mcos msin (Int.fdiv N 2)).length = (Int.fdiv N 2).toNat := by
    rw [specSecondArm, List.length_map, pyRange_length]
    omega
  have hlab : (specSpiralLabels (Int.fdiv N 2)).length =
      (Int.fdiv N 2).toNat + (Int.fdiv N 2).toNat := by
    rw [specSpiralLabels, List.length_append, List.length_replicate, List.length_replicate]
  have hsp : (spiral mcos msin r N).map (fun g => (g.N, (g.X.length : ℤ), (g.y.length : ℤ))) =
      Except.ok (N, 2 * Int.fdiv N 2, 2 * Int.fdiv N 2) := by
    rw [spiral_ok]
    simp only [Except.map, List.length_append, harm1, harm2, hlab,
      Except.ok.injEq, Prod.mk.injEq]
    refine ⟨trivial, ?_, ?_⟩ <;> omega
  refine ⟨⟨hlen, hmap _, rfl⟩, ⟨hlen, hmap _, rfl⟩, ⟨hlen, hmap _, rfl⟩,
    ⟨hlen, hmap _, rfl⟩, ⟨hlen, hmap _, rfl⟩, hsp, ?_⟩
  intro hdvd
  rw [hsp]
  simp only [Except.ok.injEq, Prod.mk.injEq]
  refine ⟨trivial, ?_, ?_⟩ <;> omega

/-- C1 counterexample: at `N = 3`, `spiral` returns a `Graph` whose stored
count is `3` but whose point and label sequences have length `2`, so the
invariant `|X| = |y| = N` fails for `spiral` at odd `N`. -/
theorem claim1_counterexample :
    (spiral (fun t => t) (fun t => t) (fun _ => 0) 3).map
        (fun g => (g.N, (g.X.length : ℤ), (g.y.length : ℤ))) = Except.ok (3, 2, 2) ∧
    (2 : ℤ) ≠ 3 :=
  ⟨rfl, by decide⟩

/-- C1 witness: the amended claim applied at `N = 4` (even), where all six
generators, `spiral` included, satisfy `|X| = |y| = N`. -/
theorem claim1_witness :
    (0 : ℤ) ≤ 4 ∧
    ((simple (fun _ => 1/2) 4).X.length : ℤ) = 4 ∧
    ((spiral (fun t => t) (fun t => t) (fun _ => 1/2) 4).map
      (fun g => (g.N, (g.X.length : ℤ), (g.y.length : ℤ))) = Except.ok (4, 4, 4)) :=
  ⟨by norm_num,
   (claim1_lengths (fun t => t) (fun t => t) (fun _ => 1/2) 4 (by norm_num)).1.1,
   (claim1_lengths (fun t => t) (fun t => t) (fun _ => 1/2) 4 (by norm_num)).2.2.2.2.2.2
     (by norm_num)⟩

/-- C4: for a random source whose draws all lie in `[0, 1)` and any
`N ≥ 0`, `make_pts(N)` returns exactly `N` points, the i-th point being
the pair of the 2i-th and (2i+1)-th draws; every coordinate is a draw from
the source and lies in `[0, 1)`; and `make_pts(0)` is empty. -/
theorem claim4_make_pts_contract (r : ℕ → ℚ) (hr : ∀ k, 0 ≤ r k ∧ r k < 1)
    (N : ℤ) (hN : 0 ≤ N) :
    ((make_pts r N).length : ℤ) = N ∧
    (∀ i (h : i < (make_pts r N).length),
      (make_pts r N).get ⟨i, h⟩ = (r (2 * i), r (2 * i + 1))) ∧
    (∀ p ∈ make_pts r N, (∃ k, p.1 = r k) ∧ (∃ k, p.2 = r k) ∧
      0 ≤ p.1 ∧ p.1 < 1 ∧ 0 ≤ p.2 ∧ p.2 < 1) ∧
    make_pts r 0 = [] := by
  refine ⟨?_, ?_, ?_, rfl⟩
  · rw [make_pts, List.length_map, List.length_range, Int.toNat_of_nonneg hN]
  · intro i h
    simp [make_pts]
  · intro p hp
    rw [make_pts] at hp
    simp only [List.mem_map, List.mem_range] at hp
    obtain ⟨i, hi, hpe⟩ := hp
    subst hpe
    exact ⟨⟨2 * i, rfl⟩, ⟨2 * i + 1, rfl⟩, (hr (2 * i)).1, (hr (2 * i)).2,
      (hr (2 * i + 1)).1, (hr (2 * i + 1)).2⟩

/-- C4 witness: the claim applied to the constant stream `1/2` at `N = 3`
and `N = 0`. -/
theorem claim4_witness :
    ((0 : ℚ) ≤ 1/2 ∧ (1 : ℚ)/2 < 1) ∧ (0 : ℤ) ≤ 3 ∧
    ((make_pts (fun _ => 1/2) 3).length : ℤ) = 3 ∧
    make_pts (fun _ => 1/2) 0 = [] :=
  ⟨⟨by norm_num, by norm_num⟩, by norm_num,
   (claim4_make_pts_contract (fun _ => 1/2) (fun _ => ⟨by norm_num, by norm_num⟩)
     3 (by norm_num)).1,
   (claim4_make_pts_contract (fun _ => 1/2) (fun _ => ⟨by norm_num, by norm_num⟩)
     0 (by norm_num)).2.2.2⟩

/-- C5: `simple` labels point `i` by the spec rule `1 if x1 < 0.5 else 0`,
index-aligned with the point sequence; in particular any point with
`x1 ≥ 0.5` gets label `0`. -/
theorem claim5_simple_labels (r : ℕ → ℚ) (N : ℤ) :
    (simple r N).y = (simple r N).X.map specSimpleLabel ∧
    (∀ i (hy : i < (simple r N).y.length) (hX : i < (simple r N).X.length),
      (simple r N).y.get ⟨i, hy⟩ = specSimpleLabel ((simple r N).X.get ⟨i, hX⟩)) ∧
    (∀ i (hy : i < (simple r N).y.length) (hX : i < (simple r N).X.length),
      1/2 ≤ ((simple r N).X.get ⟨i, hX⟩).1 → (simple r N).y.get ⟨i, hy⟩ = 0) := by
  refine ⟨rfl, ?_, ?_⟩
  · intro i hy hX
    simp [simple, specSimpleLabel]
  · intro i hy hX hge
    simp only [simple, List.get_eq_getElem, List.getElem_map] at hge ⊢
    rw [if_neg (not_lt.mpr hge)]

/-- C5 witness: the claim applied at `N = 2` with a concrete stream giving
one point on each side of the boundary. -/
theorem claim5_witness :
    (simple (fun k => if k = 0 then 1/4 else 3/4) 2).y =
      (simple (fun k => if k = 0 then 1/4 else 3/4) 2).X.map specSimpleLabel :=
  (claim5_simple_labels (fun k => if k = 0 then 1/4 else 3/4) 2).1

/-- C6: `xor` labels point `i` by the spec rule
`1 if (x1<0.5 and x2>0.5) or (x1>0.5 and x2<0.5) else 0`, index-aligned;
in particular a point with `x1 = 0.5` or `x2 = 0.5` gets label `0`. -/
theorem claim6_xor_labels (r : ℕ → ℚ) (N : ℤ) :
    (xor r N).y = (xor r N).X.map specXorLabel ∧
    (∀ i (hy : i < (xor r N).y.length) (hX : i < (xor r N).X.length),
      (xor r N).y.get ⟨i, hy⟩ = specXorLabel ((xor r N).X.get ⟨i, hX⟩)) ∧
    (∀ i (hy : i < (xor r N).y.length) (hX : i < (xor r N).X.length),
      ((xor r N).X.get ⟨i, hX⟩).1 = 1/2 → (xor r N).y.get ⟨i, hy⟩ = 0) ∧
    (∀ i (hy : i < (xor r N).y.length) (hX : i < (xor r N).X.length),
      ((xor r N).X.get ⟨i, hX⟩).2 = 1/2 → (xor r N).y.get ⟨i, hy⟩ = 0) := by
  refine ⟨rfl, ?_, ?_, ?_⟩
  · intro i hy hX
    simp [MiniTorchDatasets.xor, specXorLabel]
  · intro i hy hX heq
    simp only [MiniTorchDatasets.xor, List.get_eq_getElem, List.getElem_map] at heq ⊢
    simp [heq]
  · intro i hy hX heq
    simp only [MiniTorchDatasets.xor, List.get_eq_getElem, List.getElem_map] at heq ⊢
    simp [heq]

/-- C6 witness: the claim applied at `N = 2` with a concrete stream. -/
theorem claim6_witness :
    (xor (fun k => if k = 0 then 1/4 else 3/4) 2).y =
      (xor (fun k => if k = 0 then 1/4 else 3/4) 2).X.map specXorLabel :=
  (claim6_xor_labels (fun k => if k = 0 then 1/4 else 3/4) 2).1

/-- C7: `circle` labels point `i` by the spec rule with `d1 = x1 - 0.5`,
`d2 = x2 - 0.5`: `1 if d1*d1 + d2*d2 > 0.1 else 0` (strict), index-aligned;
a point exactly on or inside the boundary gets label `0`. -/
theorem claim7_circle_labels (r : ℕ → ℚ) (N : ℤ) :
    (circle r N).y = (circle r N).X.map specCircleLabel ∧
    (∀ i (hy : i < (circle r N).y.length) (hX : i < (circle r N).X.length),
      (circle r N).y.get ⟨i, hy⟩ = specCircleLabel ((circle r N).X.get ⟨i, hX⟩)) ∧
    (∀ i (hy : i < (circle r N).y.length) (hX : i < (circle r N).X.length),
      ¬(((circle r N).X.get ⟨i, hX⟩).1 - 1/2) * ((((circle r N).X.get ⟨i, hX⟩).1 - 1/2)) +
          (((circle r N).X.get ⟨i, hX⟩).2 - 1/2) * (((circle r N).X.get ⟨i, hX⟩).2 - 1/2) > 1/10 →
        (circle r N).y.get ⟨i, hy⟩ = 0) := by
  refine ⟨rfl, ?_, ?_⟩
  · intro i hy hX
    simp [circle, specCircleLabel]
  · intro i hy hX hle
    simp only [circle, List.get_eq_getElem, List.getElem_map] at hle ⊢
    rw [if_neg hle]

/-- C7 witness: the claim applied at `N = 2` with a concrete stream. -/
theorem claim7_witness :
    (circle (fun k => if k = 0 then 1/4 else 3/4) 2).y =
      (circle (fun k => if k = 0 then 1/4 else 3/4) 2).X.map specCircleLabel :=
  (claim7_circle_labels (fun k => if k = 0 then 1/4 else 3/4) 2).1

/-- C8: the lookup table has exactly the six documented keys, in order,
and each key maps to the correspondingly named generator. -/
theorem claim8_lookup_table (mcos msin : ℚ → ℚ) :
    (datasets mcos msin).map Prod.fst =
      ["Simple", "Diag", "Split", "Xor", "Circle", "Spiral"] ∧
    (datasets mcos msin).lookup "Simple" = some (fun r N => Except.ok (simple r N)) ∧
    (datasets mcos msin).lookup "Diag" = some (fun r N => Except.ok (diag r N)) ∧
    (datasets mcos msin).lookup "Split" = some (fun r N => Except.ok (split r N)) ∧
    (datasets mcos msin).lookup "Xor" = some (fun r N => Except.ok (xor r N)) ∧
    (datasets mcos msin).lookup "Circle" = some (fun r N => Except.ok (circle r N)) ∧
    (datasets mcos msin).lookup "Spiral" = some (spiral mcos msin) :=
  ⟨rfl, rfl, rfl, rfl, rfl, rfl, rfl⟩

/-- C8 witness: the key list at concrete trigonometric stand-ins. -/
theorem claim8_witness :
    (datasets (fun t => t) (fun t => t)).map Prod.fst =
      ["Simple", "Diag", "Split", "Xor", "Circle", "Spiral"] :=
  (claim8_lookup_table (fun t => t) (fun t => t)).1

end MiniTorchDatasets
